import Mathlib

/-!
Verification of the in-process "dummy" transport of xoscar
(`python/xoscar/backends/communication/dummy.py`).

The transport is a cooperative (asyncio) in-process channel layer:
`DummyClient.connect` allocates two fresh queues `q1`, `q2` and one fresh
`asyncio.Event`, and builds two crossed `DummyChannel` objects sharing all
three; a `DummyServer` is an address-keyed acceptor holding a closed event,
a weak set of accepted channels, and a set of accept tasks.

The shallow embedding below represents the shared mutable state of one
channel pair as a single `ChannelPair` value (the two Python channel objects
are views of it selected by an `Endpoint`), servers as records, and the
process-wide `_address_to_instances` dictionary as an association list.
Suspension and races are made explicit as oracle parameters: the outcome of
awaiting `queue.get()` (`WaitOutcome`), and the outcome of the
`asyncio.wait_for` race in `join`.  Python exceptions become an explicit
error type in `Except` results.
-/

namespace XoscarDummy

/-- Messages are opaque payloads; `Nat` stands in for `Any`. -/
abbrev Msg := Nat

/-- The Python exceptions raised by the module.
* `channelClosed` — `ChannelClosed` from `DummyChannel.send`/`recv`;
* `serverClosed` — `ServerClosed` from `DummyServer.on_connected`
  (the spec's `ServerClosed`);
* `keyError` — the `KeyError` that `DummyServer.get_instance` propagates from
  `_address_to_instances[address]` when no server is registered at the
  address (the spec's `ServerNotFound`);
* `connectionError` — `ConnectionError` from `DummyClient.connect` on a
  stopped server (the spec's `ConnectionRefused`);
* `valueError` — `ValueError` on a scheme mismatch
  (the spec's `AddressSchemeMismatch`);
* `typeError` — `TypeError` on unexpected keyword/config arguments
  (the spec's `UnexpectedConfiguration`);
* `timeoutError` — `asyncio.TimeoutError` from `asyncio.wait_for`. -/
inductive PyErr
  | channelClosed
  | serverClosed
  | keyError
  | connectionError
  | valueError
  | typeError
  | timeoutError
deriving DecidableEq

/-- The mutable state shared by the two endpoints of one dummy connection:
the two queues allocated in `DummyClient.connect` (`q1`, `q2`) and the single
shared `closed` event.  Queues are FIFO lists, head = next element that
`get()` would return (`put_nowait` appends at the tail). -/
structure ChannelPair where
  q1 : List Msg
  q2 : List Msg
  closed : Bool
deriving DecidableEq

/-- `DummyClient.connect` builds the pair fresh: two empty queues, event not
set. -/
def freshPair : ChannelPair := ⟨[], [], false⟩

/-- Which of the two crossed `DummyChannel` views of a `ChannelPair` an
operation acts through.  `connect` builds
`client_channel = DummyChannel(q1, q2, closed)` (in = `q1`, out = `q2`) and
`server_channel = DummyChannel(q2, q1, closed)` (in = `q2`, out = `q1`). -/
inductive Endpoint
  | client
  | server
deriving DecidableEq

/-- The paired (opposite) endpoint. -/
def Endpoint.other : Endpoint → Endpoint
  | .client => .server
  | .server => .client

/-- `self._in_queue` of the given endpoint. -/
def ChannelPair.inQueue (p : ChannelPair) : Endpoint → List Msg
  | .client => p.q1
  | .server => p.q2

/-- `self._out_queue` of the given endpoint. -/
def ChannelPair.outQueue (p : ChannelPair) : Endpoint → List Msg
  | .client => p.q2
  | .server => p.q1

/-- Replace the given endpoint's in-queue (the state update performed by a
successful `self._in_queue.get()`). -/
def ChannelPair.setInQueue (p : ChannelPair) : Endpoint → List Msg → ChannelPair
  | .client, q => { p with q1 := q }
  | .server, q => { p with q2 := q }

/-- Replace the given endpoint's out-queue. -/
def ChannelPair.setOutQueue (p : ChannelPair) : Endpoint → List Msg → ChannelPair
  | .client, q => { p with q2 := q }
  | .server, q => { p with q1 := q }

/-- `self._out_queue.put_nowait(message)`: append at the tail of the
endpoint's out-queue. -/
def ChannelPair.pushOut (p : ChannelPair) : Endpoint → Msg → ChannelPair
  | .client, m => { p with q2 := p.q2 ++ [m] }
  | .server, m => { p with q1 := p.q1 ++ [m] }

/-- Outcome of `await self._in_queue.get()` inside `DummyChannel.recv`:
either the wait completes and yields the queue's head, or it is interrupted
by a `RuntimeError` (e.g. the event loop shutting down). -/
inductive WaitOutcome
  | delivered
  | runtimeError
deriving DecidableEq

/-- What one `DummyChannel.recv` call does, seen from the caller:
* `value m` — returned message `m`;
* `silentNone` — returned Python `None` (the fall-through return after the
  swallowed `RuntimeError`);
* `raised e` — raised exception `e`;
* `suspended` — still blocked awaiting `get()` on an empty queue. -/
inductive RecvOutcome
  | value (m : Msg)
  | silentNone
  | raised (e : PyErr)
  | suspended
deriving DecidableEq

/-- `DummyChannel.send`: raise `ChannelClosed` if the shared event is set,
else `put_nowait` onto the out-queue. -/
def DummyChannel.send (p : ChannelPair) (ep : Endpoint) (m : Msg) :
    Except PyErr ChannelPair :=
  if p.closed then .error .channelClosed
  else .ok (p.pushOut ep m)

/-- `DummyChannel.recv`.  The Python body is:
```
if self._closed.is_set():
    raise ChannelClosed(...)
try:
    return await self._in_queue.get()
except RuntimeError:
    if self._closed.is_set():
        pass
```
`wait` is the oracle for the outcome of the `await`, and `closedAtWait` is
the value the shared event has at the moment the `RuntimeError` (if any)
arrives — the event may have been set concurrently after the initial check.
Note that in the `except RuntimeError` handler both branches of the `if`
fall through to the end of the function, which returns `None`. -/
def DummyChannel.recv (p : ChannelPair) (ep : Endpoint)
    (wait : WaitOutcome) (closedAtWait : Bool) : RecvOutcome × ChannelPair :=
  if p.closed then (.raised .channelClosed, p)
  else
    match wait with
    | .delivered =>
      match p.inQueue ep with
      | [] => (.suspended, p)
      | m :: rest => (.value m, p.setInQueue ep rest)
    | .runtimeError =>
      if closedAtWait then (.silentNone, p) else (.silentNone, p)

/-- `DummyChannel.close`: `self._closed.set()` — sets the event shared by
both endpoints, regardless of which endpoint is closed. -/
def DummyChannel.close (p : ChannelPair) (_ep : Endpoint) : ChannelPair :=
  { p with closed := true }

/-- The `DummyChannel.closed` property: `self._closed.is_set()`, read through
either endpoint. -/
def DummyChannel.closedRead (p : ChannelPair) (_ep : Endpoint) : Bool :=
  p.closed

/-- A sequence of `send` calls on one endpoint, stopping at the first
exception. -/
def DummyChannel.sendList (p : ChannelPair) (ep : Endpoint) :
    List Msg → Except PyErr ChannelPair
  | [] => .ok p
  | m :: ms =>
    match DummyChannel.send p ep m with
    | .ok p' => DummyChannel.sendList p' ep ms
    | .error e => .error e

/-- `n` consecutive uninterrupted `recv` calls on one endpoint, collecting
their outcomes in order. -/
def DummyChannel.recvList (p : ChannelPair) (ep : Endpoint) :
    Nat → List RecvOutcome × ChannelPair
  | 0 => ([], p)
  | Nat.succ n =>
    let r := DummyChannel.recv p ep .delivered false
    let rest := DummyChannel.recvList r.2 ep n
    (r.1 :: rest.1, rest.2)

/-- One accept task spawned by `asyncio.create_task(server.on_connected(...))`
in `DummyClient.connect`; `cancelled` records whether `task.cancel()` has
been called on it. -/
structure AcceptTask where
  tid : Nat
  cancelled : Bool
deriving DecidableEq

/-- `task.cancel()`. -/
def AcceptTask.cancel (t : AcceptTask) : AcceptTask :=
  { t with cancelled := true }

/-- `DummyServer` state: `sid` is the object identity (two servers with
different `sid` are distinct Python objects), `closed` the `asyncio.Event`,
`channels` the (weak) set of accepted server-side channels, `tasks` the set
of in-flight accept tasks. -/
structure DummyServer where
  sid : Nat
  address : String
  closed : Bool
  channels : List ChannelPair
  tasks : List AcceptTask
deriving DecidableEq

/-- `DummyServer.scheme`. -/
def DummyServer.scheme : String := "dummy"

/-- `DEFAULT_DUMMY_ADDRESS`. -/
def DEFAULT_DUMMY_ADDRESS : String := "dummy://0"

/-- `DummyServer.__init__`: closed event unset, no channels, no tasks. -/
def DummyServer.init (address : String) (sid : Nat) : DummyServer :=
  ⟨sid, address, false, [], []⟩

/-- The `DummyServer.stopped` property: `self._closed.is_set()`. -/
def DummyServer.stopped (s : DummyServer) : Bool := s.closed

/-- The scheme of `urlparse(address)`: the characters before the first `:`,
or none when the address contains no `:` (in which case `urlparse` reports
an empty scheme). -/
def schemeChars : List Char → Option (List Char)
  | [] => none
  | c :: cs =>
    if c = ':' then some []
    else (schemeChars cs).map (fun r => c :: r)

/-- `urlparse(address).scheme` for the address shapes used here. -/
def urlScheme (address : String) : String :=
  match schemeChars address.toList with
  | some s => ⟨s⟩
  | none => ""

/-- The process-wide `DummyServer._address_to_instances` dictionary, as an
association list.  (In Python it is a `WeakValueDictionary`; entries whose
server was garbage-collected simply do not appear in the list.) -/
abbrev Registry := List (String × DummyServer)

/-- Dictionary lookup, `none` when the address is absent (Python raises
`KeyError` at use sites via `__getitem__`; callers of this model re-raise
accordingly). -/
def lookupServer : Registry → String → Option DummyServer
  | [], _ => none
  | (a, s) :: rest, addr => if a = addr then some s else lookupServer rest addr

/-- `DummyServer._address_to_instances[address] = server`. -/
def updateOrInsert : Registry → String → DummyServer → Registry
  | [], addr, s => [(addr, s)]
  | (a, s0) :: rest, addr, s =>
    if a = addr then (addr, s) :: rest else (a, s0) :: updateOrInsert rest addr s

/-- The `config` dict passed to `DummyServer.create`: an optional
`"address"` entry, whether a `"handle_channel"` entry is present (the
handler itself is not interpreted by `create`), and any remaining keys. -/
structure CreateConfig where
  address : Option String
  hasHandleChannel : Bool
  extraKeys : List String
deriving DecidableEq

/-- `DummyServer.create(config)`.  Mirrors the Python body in order:
pop `address` (defaulting to `DEFAULT_DUMMY_ADDRESS`), pop `handle_channel`
(`KeyError` if missing), scheme check (`ValueError`), leftover-config check
(`TypeError`); then `try: server = get_instance(address); if server.stopped:
raise KeyError` with the `except KeyError` branch constructing and
registering a fresh server.  `freshSid` is the identity of the server
constructed in that branch. -/
def DummyServer.create (reg : Registry) (config : CreateConfig)
    (freshSid : Nat) : Except PyErr (DummyServer × Registry) :=
  let address := config.address.getD DEFAULT_DUMMY_ADDRESS
  if ¬ config.hasHandleChannel then .error .keyError
  else if urlScheme address ≠ DummyServer.scheme then .error .valueError
  else if config.extraKeys ≠ [] then .error .typeError
  else
    match lookupServer reg address with
    | some server =>
      if server.stopped then
        let s := DummyServer.init address freshSid
        .ok (s, updateOrInsert reg address s)
      else .ok (server, reg)
    | none =>
      let s := DummyServer.init address freshSid
      .ok (s, updateOrInsert reg address s)

/-- `DummyServer.start`: a no-op. -/
def DummyServer.start (s : DummyServer) : DummyServer := s

/-- Model of `asyncio.wait_for(self._closed.wait(), timeout)` inside
`DummyServer.join`: completes normally when the closed event is already set
or becomes set before the timeout elapses (oracle `setBeforeTimeout`);
otherwise raises `asyncio.TimeoutError`. -/
def waitForClosed (s : DummyServer) (setBeforeTimeout : Bool) :
    Except PyErr Unit :=
  if s.closed || setBeforeTimeout then .ok () else .error .timeoutError

/-- `DummyServer.join(timeout)`: await the closed event under `wait_for`,
and swallow the timeout (`except (futures.TimeoutError, asyncio.TimeoutError):
pass`). -/
def DummyServer.join (s : DummyServer) (setBeforeTimeout : Bool) :
    Except PyErr Unit :=
  match waitForClosed s setBeforeTimeout with
  | .ok () => .ok ()
  | .error .timeoutError => .ok ()
  | .error e => .error e

/-- Evidence that `await self.channel_handler(channel)` was reached, and with
which channel. -/
inductive HandlerCall
  | invoked (channel : ChannelPair)
deriving DecidableEq

/-- `DummyServer.on_connected(*args, **kwargs)`: raise `ServerClosed` when
the closed event is set; raise `TypeError` on unexpected keyword arguments;
otherwise add the (server-side) channel to `self._channels` and invoke
`self.channel_handler` with it.  `kwargs` is the list of keyword-argument
names. -/
def DummyServer.on_connected (s : DummyServer) (channel : ChannelPair)
    (kwargs : List String) : Except PyErr (DummyServer × HandlerCall) :=
  if s.closed then .error .serverClosed
  else if kwargs ≠ [] then .error .typeError
  else .ok ({ s with channels := s.channels ++ [channel] }, .invoked channel)

/-- `DummyServer.stop`: set the closed event, call `cancel()` on every
tracked task, and close every tracked channel (`asyncio.gather` of
`channel.close()`, which sets each pair's shared event). -/
def DummyServer.stop (s : DummyServer) : DummyServer :=
  { s with
    closed := true
    tasks := s.tasks.map AcceptTask.cancel
    channels := s.channels.map (fun ch => DummyChannel.close ch .server) }

/-- The operations that touch a given server's state after construction:
`start`, `join` (with its race oracle), `on_connected`, the server-side
effect of a `DummyClient.connect` that reaches `server._tasks.add(task)`
(only after the `server.stopped` guard passed), and `stop`. -/
inductive ServerOp
  | start
  | join (setBeforeTimeout : Bool)
  | onConnected (channel : ChannelPair) (kwargs : List String)
  | connectTask (tid : Nat)
  | stop

/-- The state transition each `ServerOp` performs on the server.  Operations
that raise leave the state unchanged; `join` never mutates the server. -/
def DummyServer.applyOp (s : DummyServer) : ServerOp → DummyServer
  | .start => DummyServer.start s
  | .join _ => s
  | .onConnected ch kwargs =>
    match DummyServer.on_connected s ch kwargs with
    | .ok (s', _) => s'
    | .error _ => s
  | .connectTask tid =>
    if s.stopped then s else { s with tasks := s.tasks ++ [⟨tid, false⟩] }
  | .stop => DummyServer.stop s

/-- `DummyClient` state: its addresses, the channel pair it owns the client
side of, and the id of the accept task it spawned. -/
structure DummyClient where
  localAddress : Option String
  destAddress : String
  pair : ChannelPair
  taskId : Option Nat
deriving DecidableEq

/-- `DummyClient.connect(dest_address, local_address)`.  Mirrors the Python
body: scheme check (`ValueError`); `DummyServer.get_instance(dest_address)`
(the dictionary lookup raises `KeyError` when the address is absent — the
subsequent `if server is None` branch is unreachable since `get_instance`
either raises or returns a server); `ConnectionError` when the server is
stopped; otherwise allocate a fresh queue pair and closed event, build the
two crossed channels, spawn the accept task running
`server.on_connected(server_channel)` (the task body runs later, not here),
add it to `server._tasks`, and return the client wrapping the client-side
channel.  `freshTid` is the identity of the spawned task. -/
def DummyClient.connect (reg : Registry) (destAddress : String)
    (localAddress : Option String) (freshTid : Nat) :
    Except PyErr (DummyClient × Registry) :=
  if urlScheme destAddress ≠ DummyServer.scheme then .error .valueError
  else
    match lookupServer reg destAddress with
    | none => .error .keyError
    | some server =>
      if server.stopped then .error .connectionError
      else
        let task : AcceptTask := ⟨freshTid, false⟩
        let server' := { server with tasks := server.tasks ++ [task] }
        let client : DummyClient :=
          ⟨localAddress, destAddress, freshPair, some freshTid⟩
        .ok (client, updateOrInsert reg destAddress server')

/-! ## Channel-level lemmas -/

/-- Any nonempty sequence of `close` calls, through either endpoint each
time, leaves exactly the original pair with the shared event set. -/
lemma foldl_close_eq : ∀ (eps : List Endpoint) (p : ChannelPair), eps ≠ [] →
    eps.foldl DummyChannel.close p = { p with closed := true }
  | [], _, h => absurd rfl h
  | [_], _, _ => rfl
  | _ :: e2 :: r2, p, _ => by
    rw [List.foldl_cons, foldl_close_eq (e2 :: r2) _ (by simp)]
    simp [DummyChannel.close]

/-- A successful `send` run appends the messages, in order, to the sender's
out-queue. -/
lemma sendList_ok (ep : Endpoint) (ms : List Msg) :
    ∀ p : ChannelPair, p.closed = false →
      DummyChannel.sendList p ep ms =
        .ok (p.setOutQueue ep (p.outQueue ep ++ ms)) := by
  induction ms with
  | nil =>
    intro p _
    cases ep <;>
      simp [DummyChannel.sendList, ChannelPair.setOutQueue, ChannelPair.outQueue]
  | cons m ms ih =>
    intro p h
    have hsend : DummyChannel.send p ep m = .ok (p.pushOut ep m) := by
      simp [DummyChannel.send, h]
    have hc : (p.pushOut ep m).closed = false := by
      cases ep <;> simpa [ChannelPair.pushOut] using h
    simp only [DummyChannel.sendList, hsend]
    rw [ih _ hc]
    cases ep <;>
      simp [ChannelPair.pushOut, ChannelPair.setOutQueue, ChannelPair.outQueue]

/-- Draining an endpoint whose in-queue holds `l` with `l.length`
uninterrupted `recv` calls yields exactly the messages of `l`, in order. -/
lemma recvList_values (ep : Endpoint) (l : List Msg) :
    ∀ p : ChannelPair, p.closed = false → p.inQueue ep = l →
      DummyChannel.recvList p ep l.length =
        (l.map RecvOutcome.value, p.setInQueue ep []) := by
  induction l with
  | nil =>
    intro p hc hq
    obtain ⟨a, b, c⟩ := p
    cases ep <;>
      simp_all [DummyChannel.recvList, ChannelPair.setInQueue, ChannelPair.inQueue]
  | cons m rest ih =>
    intro p hc hq
    have hrecv : DummyChannel.recv p ep .delivered false =
        (.value m, p.setInQueue ep rest) := by
      simp [DummyChannel.recv, hc, hq]
    have hc' : (p.setInQueue ep rest).closed = false := by
      cases ep <;> simpa [ChannelPair.setInQueue] using hc
    have hq' : (p.setInQueue ep rest).inQueue ep = rest := by
      cases ep <;> simp [ChannelPair.setInQueue, ChannelPair.inQueue]
    simp only [List.length_cons, DummyChannel.recvList, hrecv]
    rw [ih _ hc' hq']
    cases ep <;> simp [ChannelPair.setInQueue]

/-! ## Claim theorems: channel layer -/

/-- C1: for every channel pair (as built by `DummyClient.connect`, where both
endpoints share one closed event), any nonempty sequence of `close()` calls
through either endpoint sets the shared flag, after which `closed` reads
`true` on both endpoints, every `send()` on either endpoint raises
`ChannelClosed`, and a further `close()` through either endpoint changes
nothing (idempotence). -/
theorem close_symmetric_idempotent (p : ChannelPair) (eps : List Endpoint)
    (h : eps ≠ []) :
    DummyChannel.closedRead (eps.foldl DummyChannel.close p) .client = true ∧
    DummyChannel.closedRead (eps.foldl DummyChannel.close p) .server = true ∧
    (∀ ep m, DummyChannel.send (eps.foldl DummyChannel.close p) ep m =
      .error .channelClosed) ∧
    (∀ ep, DummyChannel.close (eps.foldl DummyChannel.close p) ep =
      eps.foldl DummyChannel.close p) := by
  rw [foldl_close_eq eps p h]
  exact ⟨rfl, rfl, fun _ _ => rfl, fun _ => rfl⟩

/-- Witness for C1 at a concrete pair and close sequence. -/
theorem close_symmetric_idempotent_witness :
    DummyChannel.closedRead
      ([Endpoint.client].foldl DummyChannel.close freshPair) .client = true ∧
    DummyChannel.closedRead
      ([Endpoint.client].foldl DummyChannel.close freshPair) .server = true ∧
    (∀ ep m, DummyChannel.send
      ([Endpoint.client].foldl DummyChannel.close freshPair) ep m =
        .error .channelClosed) ∧
    (∀ ep, DummyChannel.close
      ([Endpoint.client].foldl DummyChannel.close freshPair) ep =
        [Endpoint.client].foldl DummyChannel.close freshPair) :=
  close_symmetric_idempotent freshPair [Endpoint.client] (by decide)

/-- C2: strict FIFO per direction — if an endpoint of an open pair whose
out-queue is empty performs `send(m1)…send(mn)`, every send succeeds, and
the paired endpoint's first `n` `recv()` calls return exactly `m1…mn`, in
that order, with no reordering, loss, or duplication. -/
theorem send_recv_fifo (p : ChannelPair) (ep : Endpoint) (ms : List Msg)
    (hclosed : p.closed = false) (hq : p.outQueue ep = []) :
    ∃ p', DummyChannel.sendList p ep ms = .ok p' ∧
      (DummyChannel.recvList p' ep.other ms.length).1 =
        ms.map RecvOutcome.value := by
  refine ⟨p.setOutQueue ep ms, ?_, ?_⟩
  · rw [sendList_ok ep ms p hclosed]
    simp [hq]
  · have hc' : (p.setOutQueue ep ms).closed = false := by
      cases ep <;> simpa [ChannelPair.setOutQueue] using hclosed
    have hq' : (p.setOutQueue ep ms).inQueue ep.other = ms := by
      cases ep <;>
        simp [ChannelPair.setOutQueue, ChannelPair.inQueue, Endpoint.other]
    rw [recvList_values ep.other ms _ hc' hq']

/-- Witness for C2 on a fresh pair with three messages. -/
theorem send_recv_fifo_witness :
    ∃ p', DummyChannel.sendList freshPair .client [1, 2, 3] = .ok p' ∧
      (DummyChannel.recvList p' Endpoint.client.other
        ([1, 2, 3] : List Msg).length).1 =
          ([1, 2, 3] : List Msg).map RecvOutcome.value :=
  send_recv_fifo freshPair .client [1, 2, 3] rfl rfl

/-- C10: when the `await` inside `recv()` is interrupted by a
`RuntimeError`, `recv` swallows the error and returns Python `None`
(`silentNone`), whatever value the shared closed flag has at that moment —
in particular also when the channel is still open. -/
theorem recv_runtime_error_silent (p : ChannelPair) (ep : Endpoint)
    (closedAtWait : Bool) (h : p.closed = false) :
    DummyChannel.recv p ep .runtimeError closedAtWait = (.silentNone, p) := by
  simp [DummyChannel.recv, h]

/-- Witness for C10: interruption on an open channel whose flag was set
concurrently during the wait still returns `None`. -/
theorem recv_runtime_error_silent_witness :
    DummyChannel.recv freshPair .client .runtimeError true =
      (.silentNone, freshPair) :=
  recv_runtime_error_silent freshPair .client true rfl

/-! ## Claim theorems: server and client layer -/

/-- C3: connecting with a valid-scheme address at which no server is
registered fails with the missing-server error — the `KeyError` that
`DummyServer.get_instance` raises, which the spec names `ServerNotFound` —
deterministically: `connect` neither succeeds nor fails differently there.
(The `if server is None: raise RuntimeError` branch in the source is
unreachable, since the dictionary lookup either raises or returns a
server.) -/
theorem connect_missing_server (reg : Registry) (addr : String)
    (localAddress : Option String) (freshTid : Nat)
    (hscheme : urlScheme addr = DummyServer.scheme)
    (habsent : lookupServer reg addr = none) :
    DummyClient.connect reg addr localAddress freshTid = .error .keyError := by
  simp [DummyClient.connect, hscheme, habsent]

/-- Witness for C3: empty registry, address `dummy://nope`. -/
theorem connect_missing_server_witness :
    DummyClient.connect [] "dummy://nope" none 0 = .error .keyError :=
  connect_missing_server [] "dummy://nope" none 0 (by decide) rfl

/-- C4: connecting to an address whose registered server is stopped fails
with `ConnectionError` (the spec's `ConnectionRefused`); since the guard
fires before the queues, channels and accept task are allocated, no channel
pair is created and no task is spawned or added to the server's task set. -/
theorem connect_stopped_server (reg : Registry) (addr : String)
    (localAddress : Option String) (freshTid : Nat) (s : DummyServer)
    (hscheme : urlScheme addr = DummyServer.scheme)
    (hfound : lookupServer reg addr = some s)
    (hstopped : s.stopped = true) :
    DummyClient.connect reg addr localAddress freshTid =
      .error .connectionError := by
  simp [DummyClient.connect, hscheme, hfound, hstopped]

/-- Witness for C4 at a concrete stopped server. -/
theorem connect_stopped_server_witness :
    DummyClient.connect [("dummy://0", ⟨0, "dummy://0", true, [], []⟩)]
      "dummy://0" none 0 = .error .connectionError :=
  connect_stopped_server [("dummy://0", ⟨0, "dummy://0", true, [], []⟩)]
    "dummy://0" none 0 ⟨0, "dummy://0", true, [], []⟩
    (by decide) (by decide) rfl

/-- C5: `create` with a well-formed config for address `A` is an idempotent
singleton per address — when the registry holds a non-stopped server at `A`
it returns that very server object and leaves the registry unchanged; when
the server at `A` is stopped it constructs, registers and returns a fresh
server. -/
theorem create_idempotent_singleton (reg : Registry) (addr : String)
    (freshSid : Nat) (s : DummyServer)
    (hscheme : urlScheme addr = DummyServer.scheme)
    (hfound : lookupServer reg addr = some s) :
    (s.stopped = false →
      DummyServer.create reg ⟨some addr, true, []⟩ freshSid = .ok (s, reg)) ∧
    (s.stopped = true →
      DummyServer.create reg ⟨some addr, true, []⟩ freshSid =
        .ok (DummyServer.init addr freshSid,
          updateOrInsert reg addr (DummyServer.init addr freshSid))) := by
  constructor
  · intro hlive
    simp [DummyServer.create, hscheme, hfound, hlive]
  · intro hstopped
    simp [DummyServer.create, hscheme, hfound, hstopped]

/-- Witness for C5: both branches at concrete registries — a live server at
`dummy://0` is returned unchanged, a stopped one is replaced by a fresh
registration. -/
theorem create_idempotent_singleton_witness :
    DummyServer.create [("dummy://0", ⟨0, "dummy://0", false, [], []⟩)]
        ⟨some "dummy://0", true, []⟩ 7 =
      .ok (⟨0, "dummy://0", false, [], []⟩,
        [("dummy://0", ⟨0, "dummy://0", false, [], []⟩)]) ∧
    DummyServer.create [("dummy://0", ⟨0, "dummy://0", true, [], []⟩)]
        ⟨some "dummy://0", true, []⟩ 7 =
      .ok (DummyServer.init "dummy://0" 7,
        updateOrInsert [("dummy://0", ⟨0, "dummy://0", true, [], []⟩)]
          "dummy://0" (DummyServer.init "dummy://0" 7)) :=
  ⟨(create_idempotent_singleton
      [("dummy://0", ⟨0, "dummy://0", false, [], []⟩)] "dummy://0" 7
      ⟨0, "dummy://0", false, [], []⟩ (by decide) (by decide)).1 rfl,
   (create_idempotent_singleton
      [("dummy://0", ⟨0, "dummy://0", true, [], []⟩)] "dummy://0" 7
      ⟨0, "dummy://0", true, [], []⟩ (by decide) (by decide)).2 rfl⟩

/-- C6: `on_connected` raises `ServerClosed` whenever the server is already
stopped (whatever keyword arguments are passed); on a non-stopped server,
called as the connect protocol calls it (no keyword arguments), it adds the
channel to the tracked channel set and invokes the connection handler with
exactly that channel. -/
theorem on_connected_spec (s : DummyServer) (ch : ChannelPair) :
    (s.stopped = true → ∀ kwargs,
      DummyServer.on_connected s ch kwargs = .error .serverClosed) ∧
    (s.stopped = false →
      DummyServer.on_connected s ch [] =
        .ok ({ s with channels := s.channels ++ [ch] },
          .invoked ch)) := by
  constructor
  · intro hstopped kwargs
    simp [DummyServer.on_connected, DummyServer.stopped] at hstopped ⊢
    simp [hstopped]
  · intro hlive
    simp [DummyServer.stopped] at hlive
    simp [DummyServer.on_connected, hlive]

/-- Witness for C6: both branches at concrete servers. -/
theorem on_connected_spec_witness :
    DummyServer.on_connected ⟨0, "dummy://0", true, [], []⟩ freshPair [] =
      .error .serverClosed ∧
    DummyServer.on_connected ⟨1, "dummy://0", false, [], []⟩ freshPair [] =
      .ok (⟨1, "dummy://0", false, [freshPair], []⟩, .invoked freshPair) := by
  refine ⟨(on_connected_spec ⟨0, "dummy://0", true, [], []⟩ freshPair).1 rfl [], ?_⟩
  have h := (on_connected_spec ⟨1, "dummy://0", false, [], []⟩ freshPair).2 rfl
  simpa using h

/-- C7: `join(timeout)` returns normally for every server and every outcome
of the `wait_for` race: when the timeout elapses before the closed event is
set the `TimeoutError` is swallowed, and when the event is (or becomes) set
the wait completes — in no case does `join` raise. -/
theorem join_never_raises (s : DummyServer) (setBeforeTimeout : Bool) :
    DummyServer.join s setBeforeTimeout = .ok () := by
  cases hc : s.closed <;> cases setBeforeTimeout <;>
    simp [DummyServer.join, waitForClosed, hc]

/-- Every single operation preserves a set closed flag. -/
lemma applyOp_preserves_stopped (s : DummyServer) (op : ServerOp)
    (h : s.stopped = true) : (DummyServer.applyOp s op).stopped = true := by
  cases op with
  | start => exact h
  | join _ => exact h
  | onConnected ch kwargs =>
    simp [DummyServer.stopped] at h
    simp [DummyServer.applyOp, DummyServer.on_connected, h, DummyServer.stopped]
  | connectTask tid =>
    simp [DummyServer.applyOp, h]
  | stop =>
    simp [DummyServer.applyOp, DummyServer.stop, DummyServer.stopped]

/-- C8: `stopped` is monotonic — once a server's closed flag is set, no
sequence of subsequent operations (`start`, `join`, `on_connected`, the
task-registering step of `connect`, further `stop` calls) ever makes
`stopped` read false again; and `stop` itself is idempotent on the whole
server state. -/
theorem stopped_monotonic (s : DummyServer) (ops : List ServerOp)
    (h : s.stopped = true) :
    (ops.foldl DummyServer.applyOp s).stopped = true ∧
    ∀ s' : DummyServer,
      DummyServer.stop (DummyServer.stop s') = DummyServer.stop s' := by
  constructor
  · induction ops generalizing s with
    | nil => exact h
    | cons op rest ih =>
      rw [List.foldl_cons]
      exact ih _ (applyOp_preserves_stopped s op h)
  · intro s'
    simp [DummyServer.stop, List.map_map, Function.comp_def, AcceptTask.cancel,
      DummyChannel.close]

/-- Witness for C8: a stopped server stays stopped across a concrete
operation sequence. -/
theorem stopped_monotonic_witness :
    (([ServerOp.start, ServerOp.join false,
        ServerOp.onConnected freshPair [], ServerOp.connectTask 3,
        ServerOp.stop].foldl DummyServer.applyOp
          ⟨0, "dummy://0", true, [], []⟩).stopped = true) ∧
    ∀ s' : DummyServer,
      DummyServer.stop (DummyServer.stop s') = DummyServer.stop s' :=
  stopped_monotonic ⟨0, "dummy://0", true, [], []⟩
    [ServerOp.start, ServerOp.join false, ServerOp.onConnected freshPair [],
      ServerOp.connectTask 3, ServerOp.stop] rfl

/-- C9: `stop` calls `cancel()` on every tracked accept task — after `stop`
returns, the cancelled version of every previously tracked task is in the
task set, and every task in the post-`stop` set is cancelled.  (That a
cancelled asyncio task does not run past its next suspension point is the
runtime's cancellation semantics.) -/
theorem stop_cancels_tasks (s : DummyServer) (t : AcceptTask)
    (h : t ∈ s.tasks) :
    AcceptTask.cancel t ∈ (DummyServer.stop s).tasks ∧
    ∀ t' ∈ (DummyServer.stop s).tasks, t'.cancelled = true := by
  constructor
  · exact List.mem_map_of_mem AcceptTask.cancel h
  · intro t' ht'
    simp only [DummyServer.stop, List.mem_map] at ht'
    obtain ⟨t0, _, rfl⟩ := ht'
    rfl

/-- Witness for C9 at a server tracking one task. -/
theorem stop_cancels_tasks_witness :
    AcceptTask.cancel ⟨5, false⟩ ∈
      (DummyServer.stop ⟨0, "dummy://0", false, [], [⟨5, false⟩]⟩).tasks ∧
    ∀ t' ∈ (DummyServer.stop ⟨0, "dummy://0", false, [], [⟨5, false⟩]⟩).tasks,
      t'.cancelled = true :=
  stop_cancels_tasks ⟨0, "dummy://0", false, [], [⟨5, false⟩]⟩ ⟨5, false⟩
    (by simp)

end XoscarDummy
